import Mathlib

/-!
# Verification of the vermLib voice-presence follow controller

Shallow embedding of the `FollowUser` plugin (`src/unnamed/part_002`,
lines 1111–1828).  The plugin tracks a followed user's voice channel and
keeps the local user co-located with them.

Modelling conventions:

* Module-level mutable variables (`disconnectFollow`, `preloadDelay`,
  `enableDebugLogs`, `followedUserId`, `lastFollowedChannelId`,
  `preloadedGuilds`, `searchInterval`, `isSearching`) become fields of
  `FState`.  The `setInterval` handle is modelled as
  `searchLoop : Option SearchLoop`, carrying the `userId`/`username`
  captured by the interval closure.
* External collaborators (`ChannelStore`, `PermissionStore`,
  `GuildStore`, `GuildChannelStore`, `GuildMemberStore`,
  `VoiceStateStore`, `SelectedChannelStore`, `UserStore`, `RestAPI`)
  become an `Env` of pure query functions.  Observable calls
  (`ChannelActionCreators.preload`, `REQUEST_CHANNEL_SUMMARIES`
  dispatches, `ChannelRouter.transitionToChannel`,
  `ChannelActions.selectVoiceChannel`, toasts, the REST profile fetch,
  voice-state reads, and the 100 ms inter-guild pause) are recorded as
  an `Effect` list.
* The two nested `setTimeout` callbacks inside `joinVoiceChannel`
  become pending `Stage` values stored in `FState.pendingStages`; an
  explicit scheduler operation (`Op.fire`) fires a pending stage.
  Firing at an arbitrary index over-approximates the real timer wheel
  (every real timer order is one of the modelled orders).
* The asynchronous bodies of `preloadMutualGuilds` / `preloadGuildData`
  are flattened into the step that initiates them; they do not touch the
  session fields the ordering-sensitive claims are about.
* `console.log` / `debugLog` output is not modelled (pure logging).
* For error-propagation claims a second environment `ThrowEnv` lets
  every collaborator call throw; the `...T` functions reproduce the
  exact `try`/`catch` structure of the source for those code paths.
-/

/-- A channel record as read from `ChannelStore.getChannel`:
`guild_id` and whether `isPrivate()` (DM / group DM) holds. -/
structure Channel where
  guild_id : Option String
  isPriv : Bool
  deriving DecidableEq, Repr

/-- Observable external calls made by the controller. -/
inductive Effect where
  | toast (msg : String)
  | restProfile (userId : String)
  | preloadGuild (guildId channelId : String)
  | requestSummaries (guildId : String)
  | sleep (ms : Nat)
  | queryVoiceState (userId : String)
  | navigate (channelId : String)
  | connectVoice (channelId : Option String)
  deriving DecidableEq, Repr

/-- The data captured by the `setInterval` closure in `startSearching`. -/
structure SearchLoop where
  userId : String
  username : String
  deriving DecidableEq, Repr

/-- A pending `setTimeout` callback from `joinVoiceChannel`: the
navigate stage (after the preload delay) or the connect stage (after the
100 ms settle delay).  Each captures the `channelId` argument of the
`joinVoiceChannel` call that scheduled it, exactly as the source
closures do. -/
inductive Stage where
  | navigate (channelId : String)
  | connect (channelId : String)
  deriving DecidableEq, Repr

/-- The controller's module-level mutable state. -/
structure FState where
  disconnectFollow : Bool
  preloadDelay : Nat
  enableDebugLogs : Bool
  followedUserId : Option String
  lastFollowedChannelId : Option String
  preloadedGuilds : List String
  searchLoop : Option SearchLoop
  isSearching : Bool
  pendingStages : List Stage
  deriving DecidableEq, Repr

/-- Initial values of the module-level variables. -/
def initState : FState :=
  { disconnectFollow := false
    preloadDelay := 300
    enableDebugLogs := false
    followedUserId := none
    lastFollowedChannelId := none
    preloadedGuilds := []
    searchLoop := none
    isSearching := false
    pendingStages := [] }

/-- Pure view of the external stores the controller queries. -/
structure Env where
  getChannel : String → Option Channel
  canView : Channel → Bool
  canConnect : Channel → Bool
  getDefaultChannel : String → Option String
  guildIds : List String
  getGuild : String → Bool
  isMember : String → String → Bool
  hasVoiceState : String → String → Bool
  restMutualGuilds : String → Option (List String)
  preloadFails : String → Bool
  voiceChannelOf : String → Option String
  myVoiceChannelId : Option String
  username : String → String

/-- `canViewChannel` (part_002 lines 1193–1223): no id ⇒ false; channel
not in the store ⇒ `true` (optimistic default); otherwise private or
`VIEW_CHANNEL` permission.  (The `catch` branch returning `false` only
fires for throwing collaborators; see `canViewChannelT`.) -/
def canViewChannel (env : Env) (channelId : Option String) : Bool :=
  match channelId with
  | none => false
  | some cid =>
    match env.getChannel cid with
    | none => true
    | some ch => ch.isPriv || env.canView ch

/-- `canJoinChannel` (part_002 lines 1225–1263): no id ⇒ false; channel
not in the store ⇒ `false` (conservative default); private ⇒ true;
otherwise `VIEW_CHANNEL && CONNECT`. -/
def canJoinChannel (env : Env) (channelId : Option String) : Bool :=
  match channelId with
  | none => false
  | some cid =>
    match env.getChannel cid with
    | none => false
    | some ch =>
      if ch.isPriv then true
      else env.canView ch && env.canConnect ch

/-- Effects of `preloadGuildData` (part_002 lines 1265–1348).  Channel
not loaded ⇒ request summaries for every guild.  Channel loaded with a
guild ⇒ preload the guild's default channel (if any — the call is made
whether or not it will fail, its rejection is caught inside) and then
request summaries for that guild (separate `try`, dispatched even when
the preload threw).  Note: the function never consults or updates
`preloadedGuilds`. -/
def preloadGuildData (env : Env) (cid : String) : List Effect :=
  match env.getChannel cid with
  | none => env.guildIds.map Effect.requestSummaries
  | some ch =>
    match ch.guild_id with
    | none => []
    | some g =>
      (match env.getDefaultChannel g with
       | some dc => [Effect.preloadGuild g dc]
       | none => []) ++ [Effect.requestSummaries g]

/-- `stopSearching` (lines 1350–1357): clear the interval and the flag. -/
def stopSearching (s : FState) : FState :=
  { s with searchLoop := none, isSearching := false }

/-- `startSearching` (lines 1378–1396, synchronous part): stop any
existing search, show the searching toast, set the flag and install the
interval closure capturing `userId`/`username`. -/
def startSearching (s : FState) (userId username : String) :
    FState × List Effect :=
  let s1 := stopSearching s
  ({ s1 with
      isSearching := true
      searchLoop := some { userId := userId, username := username } },
   [Effect.toast ("Searching for " ++ username ++ " in voice channels...")])

/-- `checkUserInVoiceChannel` (lines 1359–1376). -/
def checkUserInVoiceChannel (env : Env) (userId : String) : Option String :=
  env.voiceChannelOf userId

/-- `joinVoiceChannel` (lines 1555–1636), synchronous part plus the
flattened `preloadGuildData` effects: record
`lastFollowedChannelId := channelId` immediately and schedule the
navigate stage (which will itself schedule the connect stage).  The
timer callbacks capture `channelId`; nothing is ever cancelled. -/
def joinVoiceChannel (env : Env) (s : FState) (cid : String) :
    FState × List Effect :=
  let s1 := { s with lastFollowedChannelId := some cid }
  ({ s1 with pendingStages := s1.pendingStages ++ [Stage.navigate cid] },
   preloadGuildData env cid)

/-- Firing one pending timer callback of `joinVoiceChannel`
(lines 1569–1599).  The navigate callback: if `canViewChannel` of the
*captured* id holds, navigate (the call is wrapped in `try`/`catch`),
then schedule the connect callback.  The connect callback: if
`canJoinChannel` of the captured id holds, `selectVoiceChannel` it.
Neither callback reads `lastFollowedChannelId`, `followedUserId` or any
other session field. -/
def fireStage (env : Env) (s : FState) (st : Stage) : FState × List Effect :=
  match st with
  | Stage.navigate cid =>
    ({ s with pendingStages := s.pendingStages ++ [Stage.connect cid] },
     if canViewChannel env (some cid) then [Effect.navigate cid] else [])
  | Stage.connect cid =>
    (s,
     if canJoinChannel env (some cid) then
       [Effect.connectVoice (some cid)]
     else [])

/-- One tick of the search interval (lines 1397–1422): if the followed
user no longer matches the id the loop was started for, stop and exit
before any voice-state query; otherwise query the store, and on a new
channel stop the loop, toast success and call `joinVoiceChannel`. -/
def searchTick (env : Env) (s : FState) : FState × List Effect :=
  match s.searchLoop with
  | none => (s, [])
  | some loop =>
    if s.followedUserId = some loop.userId then
      match checkUserInVoiceChannel env loop.userId with
      | some cid =>
        if some cid ≠ s.lastFollowedChannelId then
          let s1 := stopSearching s
          let r := joinVoiceChannel env s1 cid
          (r.1,
           Effect.queryVoiceState loop.userId ::
             Effect.toast ("Successfully followed " ++ loop.username ++ "!") ::
               r.2)
        else (s, [Effect.queryVoiceState loop.userId])
      | none => (s, [Effect.queryVoiceState loop.userId])
    else (stopSearching s, [])

/-- Local mutual-guild detection (lines 1464–1504): every guild that
exists in the store where the user is a member or has a voice state. -/
def localMutualDetect (env : Env) (uid : String) : List String :=
  env.guildIds.filter fun g =>
    env.getGuild g && (env.isMember g uid || env.hasVoiceState g uid)

/-- Mutual-guild list (lines 1431–1504): the REST profile result when it
yields a non-empty list, the local detection otherwise (REST failure or
an empty/missing `mutual_guilds` field both fall back). -/
def mutualGuildIds (env : Env) (uid : String) : List String :=
  match env.restMutualGuilds uid with
  | some l => if l = [] then localMutualDetect env uid else l
  | none => localMutualDetect env uid

/-- Body of the per-guild loop of `preloadMutualGuilds`
(lines 1506–1546): skip guilds already in `preloadedGuilds`; otherwise
preload the default channel (when one exists), and only when that call
*succeeds* mark the guild cached and pause 100 ms; the summaries
dispatch sits after the preload in the same `try`, so a throwing preload
skips it. -/
def preloadOneGuild (env : Env) (cache : List String) (g : String) :
    List String × List Effect :=
  if g ∈ cache then (cache, [])
  else
    match env.getDefaultChannel g with
    | some dc =>
      if env.preloadFails g then (cache, [Effect.preloadGuild g dc])
      else
        (g :: cache,
         [Effect.preloadGuild g dc, Effect.sleep 100,
          Effect.requestSummaries g])
    | none => (cache, [Effect.requestSummaries g])

/-- `preloadMutualGuilds` (lines 1425–1553): fetch the profile with
`with_mutual_guilds` over REST, then run the per-guild loop over the
mutual guilds, threading the cache. -/
def preloadMutualGuilds (env : Env) (s : FState) (uid : String) :
    FState × List Effect :=
  let folded :=
    (mutualGuildIds env uid).foldl
      (fun (acc : List String × List Effect) g =>
        let r := preloadOneGuild env acc.1 g
        (r.1, acc.2 ++ r.2))
      (s.preloadedGuilds, ([] : List Effect))
  ({ s with preloadedGuilds := folded.1 },
   Effect.restProfile uid :: folded.2)

/-- The context-menu action (lines 1653–1707).  Clicking the followed
user unfollows: clear both ids, nothing else (the search interval is
*not* cleared here).  Clicking another user follows: set the ids, start
`preloadMutualGuilds` (fire-and-forget, flattened here), probe the
voice-state store, and either join immediately (user already in voice,
with a success toast after the join call) or start searching. -/
def followAction (env : Env) (s : FState) (uid uname : String) :
    FState × List Effect :=
  if s.followedUserId = some uid then
    ({ s with followedUserId := none, lastFollowedChannelId := none }, [])
  else
    let s1 := { s with followedUserId := some uid,
                       lastFollowedChannelId := none }
    let pre := preloadMutualGuilds env s1 uid
    match env.voiceChannelOf uid with
    | some cid =>
      let r := joinVoiceChannel env pre.1 cid
      (r.1,
       pre.2 ++ [Effect.queryVoiceState uid] ++ r.2 ++
         [Effect.toast ("Successfully followed " ++ uname ++ "!")])
    | none =>
      let r := startSearching pre.1 uid uname
      (r.1, pre.2 ++ [Effect.queryVoiceState uid] ++ r.2)

/-- The `for` loop of the `VOICE_STATE_UPDATES` handler
(lines 1755–1821), threading state through the batch.  `fid` is the
followed user at handler entry (never reassigned inside the handler).
A matching update with a new channel: stop searching, join, toast.
Same channel: nothing.  No channel: start searching; then, when
`disconnectFollow` is off, `return` — aborting the *rest of the batch*;
when on, disconnect and clear `lastFollowedChannelId` exactly when the
local voice channel equals it. -/
def handleUpdatesLoop (env : Env) (fid : String) (s : FState) :
    List (String × Option String) → FState × List Effect
  | [] => (s, [])
  | (uid, chan) :: rest =>
    if uid = fid then
      match chan with
      | some cid =>
        if some cid ≠ s.lastFollowedChannelId then
          let s1 := stopSearching s
          let join := joinVoiceChannel env s1 cid
          let effs :=
            join.2 ++
              [Effect.toast
                ("Successfully followed " ++ env.username fid ++ "!")]
          let r := handleUpdatesLoop env fid join.1 rest
          (r.1, effs ++ r.2)
        else handleUpdatesLoop env fid s rest
      | none =>
        let search := startSearching s fid (env.username fid)
        if s.disconnectFollow = false then (search.1, search.2)
        else
          match env.myVoiceChannelId with
          | some myc =>
            if s.lastFollowedChannelId = some myc then
              let s2 := { search.1 with lastFollowedChannelId := none }
              let r := handleUpdatesLoop env fid s2 rest
              (r.1, search.2 ++ [Effect.connectVoice none] ++ r.2)
            else
              let r := handleUpdatesLoop env fid search.1 rest
              (r.1, search.2 ++ r.2)
          | none =>
            let r := handleUpdatesLoop env fid search.1 rest
            (r.1, search.2 ++ r.2)
    else handleUpdatesLoop env fid s rest

/-- The `flux.VOICE_STATE_UPDATES` handler (lines 1750–1822): bail out
when not following anyone, else run the batch loop. -/
def handleVoiceStateUpdates (env : Env) (s : FState)
    (updates : List (String × Option String)) : FState × List Effect :=
  match s.followedUserId with
  | none => (s, [])
  | some fid => handleUpdatesLoop env fid s updates

/-- `start()` (lines 1736–1742): reset the ids, clear the preload cache,
stop any search.  Pending `setTimeout` callbacks are *not* cancelled. -/
def startOp (s : FState) : FState :=
  stopSearching
    { s with followedUserId := none, lastFollowedChannelId := none,
             preloadedGuilds := [] }

/-- `stop()` (lines 1743–1748): identical resets to `start()`. -/
def stopOp (s : FState) : FState :=
  stopSearching
    { s with followedUserId := none, lastFollowedChannelId := none,
             preloadedGuilds := [] }

/-- `updateSettings` (lines 1719–1735): overwrite only the keys
present in the partial update. -/
def updateSettingsOp (s : FState) (df : Option Bool) (pd : Option Nat)
    (dbg : Option Bool) : FState :=
  { s with
      disconnectFollow := df.getD s.disconnectFollow
      preloadDelay := pd.getD s.preloadDelay
      enableDebugLogs := dbg.getD s.enableDebugLogs }

/-- The operations a run of the controller interleaves.  `fire n` fires
the `n`-th pending `joinVoiceChannel` timer callback (the scheduler may
fire them in any order consistent with their delays; allowing every
index over-approximates that). -/
inductive Op where
  | start
  | stop
  | follow (uid uname : String)
  | voiceUpdates (updates : List (String × Option String))
  | tick
  | fire (n : Nat)
  | updateSettings (df : Option Bool) (pd : Option Nat) (dbg : Option Bool)

/-- One scheduler step: run one handler/callback to completion. -/
def step (env : Env) (s : FState) : Op → FState × List Effect
  | Op.start => (startOp s, [])
  | Op.stop => (stopOp s, [])
  | Op.follow uid uname => followAction env s uid uname
  | Op.voiceUpdates ups => handleVoiceStateUpdates env s ups
  | Op.tick => searchTick env s
  | Op.fire n =>
    match s.pendingStages.get? n with
    | none => (s, [])
    | some st =>
      fireStage env { s with pendingStages := s.pendingStages.eraseIdx n } st
  | Op.updateSettings df pd dbg => (updateSettingsOp s df pd dbg, [])

/-- States reachable from the initial state by any interleaving of
operations, under arbitrary (possibly varying) store contents. -/
inductive Reachable : FState → Prop where
  | init : Reachable initState
  | step (env : Env) (s : FState) (op : Op) :
      Reachable s → Reachable (step env s op).1

/-- The search bookkeeping invariant: whenever `isSearching` is set an
interval closure is installed. -/
def SearchInv (s : FState) : Prop :=
  s.isSearching = true → s.searchLoop ≠ none

/-!
## Throwing-collaborator model (error-propagation claims)

`ThrowEnv` lets each collaborator call used inside the two
`joinVoiceChannel` timer callbacks throw; `Except.error` means an
exception.  The `...T` functions reproduce the `try`/`catch` placement
of the source exactly: in `canViewChannel`/`canJoinChannel` the
`ChannelStore.getChannel` call sits *outside* the `try`, the permission
checks inside (`catch` returns `false`); in the navigate callback the
`transitionToChannel` call is wrapped, in the connect callback the
`selectVoiceChannel` call is not wrapped at all.  An `Except.error`
result of a stage function is an exception escaping the timer callback
(an uncaught exception / unhandled rejection in the host). -/
structure ThrowEnv where
  getChannel : String → Except String (Option Channel)
  canView : Channel → Except String Bool
  canConnect : Channel → Except String Bool
  transitionToChannel : String → Except String Unit
  selectVoiceChannel : Option String → Except String Unit

/-- `canViewChannel` with throwing collaborators (lines 1193–1223). -/
def canViewChannelT (env : ThrowEnv) (channelId : Option String) :
    Except String Bool :=
  match channelId with
  | none => Except.ok false
  | some cid =>
    match env.getChannel cid with
    | Except.error e => Except.error e
    | Except.ok none => Except.ok true
    | Except.ok (some ch) =>
      if ch.isPriv then Except.ok true
      else
        match env.canView ch with
        | Except.ok b => Except.ok b
        | Except.error _ => Except.ok false

/-- `canJoinChannel` with throwing collaborators (lines 1225–1263). -/
def canJoinChannelT (env : ThrowEnv) (channelId : Option String) :
    Except String Bool :=
  match channelId with
  | none => Except.ok false
  | some cid =>
    match env.getChannel cid with
    | Except.error e => Except.error e
    | Except.ok none => Except.ok false
    | Except.ok (some ch) =>
      if ch.isPriv then Except.ok true
      else
        match env.canView ch with
        | Except.error _ => Except.ok false
        | Except.ok v =>
          match env.canConnect ch with
          | Except.error _ => Except.ok false
          | Except.ok c => Except.ok (v && c)

/-- The navigate timer callback (lines 1569–1584) with throwing
collaborators: `transitionToChannel` is inside `try`/`catch`, so only a
throwing `getChannel` (inside `canViewChannel`) escapes. -/
def navigateStageT (env : ThrowEnv) (cid : String) :
    Except String (List Effect) :=
  match canViewChannelT env (some cid) with
  | Except.error e => Except.error e
  | Except.ok true =>
    match env.transitionToChannel cid with
    | Except.ok _ => Except.ok [Effect.navigate cid]
    | Except.error _ => Except.ok []
  | Except.ok false => Except.ok []

/-- The connect timer callback (lines 1587–1598) with throwing
collaborators: the `selectVoiceChannel` call has no surrounding
`try`/`catch`, so its exception escapes the callback. -/
def connectStageT (env : ThrowEnv) (cid : String) :
    Except String (List Effect) :=
  match canJoinChannelT env (some cid) with
  | Except.error e => Except.error e
  | Except.ok true =>
    match env.selectVoiceChannel (some cid) with
    | Except.ok _ => Except.ok [Effect.connectVoice (some cid)]
    | Except.error e => Except.error e
  | Except.ok false => Except.ok []

/-!
## Concrete environments used by counterexamples and witnesses -/

/-- An environment with empty stores: no channels loaded, no guilds, no
voice states, REST mutual-guild fetch failing. -/
def emptyEnv : Env :=
  { getChannel := fun _ => none
    canView := fun _ => false
    canConnect := fun _ => false
    getDefaultChannel := fun _ => none
    guildIds := []
    getGuild := fun _ => false
    isMember := fun _ _ => false
    hasVoiceState := fun _ _ => false
    restMutualGuilds := fun _ => none
    preloadFails := fun _ => false
    voiceChannelOf := fun _ => none
    myVoiceChannelId := none
    username := fun _ => "user" }

/-- An environment where every channel is loaded, public and fully
permitted. -/
def loadedEnv : Env :=
  { emptyEnv with
      getChannel := fun _ => some { guild_id := some "g1", isPriv := false }
      canView := fun _ => true
      canConnect := fun _ => true }

/-!
## Claim C3 — idempotent push event for the current channel -/

/-- C3: processing a push location event whose channel id equals the
current `lastFollowedChannelId` returns the state unchanged and produces
no effects — in particular no preload, navigate or connect stage. -/
theorem C3_push_event_idempotent (env : Env) (s : FState) (uid c : String)
    (h1 : s.followedUserId = some uid)
    (h2 : s.lastFollowedChannelId = some c) :
    handleVoiceStateUpdates env s [(uid, some c)] = (s, []) := by
  simp [handleVoiceStateUpdates, h1, handleUpdatesLoop, h2]

/-- Witness for C3 at a concrete state and event. -/
theorem C3_push_event_idempotent_witness :
    handleVoiceStateUpdates emptyEnv
        { initState with followedUserId := some "U",
                         lastFollowedChannelId := some "chan1" }
        [("U", some "chan1")] =
      ({ initState with followedUserId := some "U",
                        lastFollowedChannelId := some "chan1" }, []) :=
  C3_push_event_idempotent emptyEnv
    { initState with followedUserId := some "U",
                     lastFollowedChannelId := some "chan1" }
    "U" "chan1" rfl rfl

/-!
## Claim C4 — asymmetric optimism of the permission checks -/

/-- C4: when the channel record is not loaded, `canViewChannel` answers
`true` (optimistic) and the navigate stage fires, while `canJoinChannel`
answers `false` (conservative) and the connect stage issues no
voice-connect call. -/
theorem C4_asymmetric_optimism (env : Env) (s : FState) (c : String)
    (h : env.getChannel c = none) :
    canViewChannel env (some c) = true ∧
    canJoinChannel env (some c) = false ∧
    (fireStage env s (Stage.navigate c)).2 = [Effect.navigate c] ∧
    (fireStage env s (Stage.connect c)).2 = [] := by
  simp [canViewChannel, canJoinChannel, fireStage, h]

/-- Witness for C4 in the empty store. -/
theorem C4_asymmetric_optimism_witness :
    canViewChannel emptyEnv (some "chan1") = true ∧
    canJoinChannel emptyEnv (some "chan1") = false ∧
    (fireStage emptyEnv initState (Stage.navigate "chan1")).2 =
      [Effect.navigate "chan1"] ∧
    (fireStage emptyEnv initState (Stage.connect "chan1")).2 = [] :=
  C4_asymmetric_optimism emptyEnv initState "chan1" rfl

/-!
## Claim C1 — stages allegedly re-read `lastFollowedChannelId` -/

/-- Following user `U`, before any event. -/
def c1State0 : FState := { initState with followedUserId := some "U" }

/-- After a push event moving `U` to `chan1`. -/
def c1State1 : FState :=
  (handleVoiceStateUpdates loadedEnv c1State0 [("U", some "chan1")]).1

/-- After a second push event moving `U` to `chan2`, while the `chan1`
attempt's navigate timer is still pending. -/
def c1State2 : FState :=
  (handleVoiceStateUpdates loadedEnv c1State1 [("U", some "chan2")]).1

/-- After the stale `chan1` navigate timer fires. -/
def c1State3 : FState := (step loadedEnv c1State2 (Op.fire 0)).1

/-- C1 counterexample: with `lastFollowedChannelId = some "chan2"`, the
`chan1` attempt's navigate callback still navigates to `chan1`, and the
connect callback it schedules still connects to `chan1` — the stages act
on the id captured at schedule time, producing navigate/connect effects
for a channel the session has moved past.  (Firing the older timer first
matches real timer order: it was scheduled earlier with the same
delays.) -/
theorem C1_counterexample :
    c1State2.lastFollowedChannelId = some "chan2" ∧
    (step loadedEnv c1State2 (Op.fire 0)).2 = [Effect.navigate "chan1"] ∧
    c1State3.lastFollowedChannelId = some "chan2" ∧
    (step loadedEnv c1State3 (Op.fire 1)).2 =
      [Effect.connectVoice (some "chan1")] := by
  decide

/-- C1 amended: each stage's effects are a function of the channel id
captured when the attempt was scheduled (and of the stores) only — the
session state, in particular `lastFollowedChannelId`, is never re-read
by a firing stage, so stale stages are not suppressed.  What does hold
of the arbitration point: every `joinVoiceChannel` records its channel
in `lastFollowedChannelId` at once, so after processing a push event for
channel `c` the session's `lastFollowedChannelId` is `some c` — the last
delivered channel id always wins the *record*, not the in-flight
stages. -/
theorem C1_amended_capture_semantics (env : Env) (s t : FState) (st : Stage)
    (uid c : String) (h : s.followedUserId = some uid) :
    (fireStage env s st).2 = (fireStage env t st).2 ∧
    (handleVoiceStateUpdates env s [(uid, some c)]).1.lastFollowedChannelId =
      some c := by
  constructor
  · cases st <;> rfl
  · simp only [handleVoiceStateUpdates, h, handleUpdatesLoop, if_pos]
    by_cases hc : some c ≠ s.lastFollowedChannelId
    · simp [hc, handleUpdatesLoop, joinVoiceChannel]
    · simp only [ne_eq, not_not] at hc
      simp [hc.symm ▸ (by simp : ¬(some c ≠ some c)), ← hc, handleUpdatesLoop]

/-- Witness for the amended C1 at concrete inputs. -/
theorem C1_amended_capture_semantics_witness :
    (fireStage loadedEnv c1State0 (Stage.navigate "chan1")).2 =
      (fireStage loadedEnv c1State2 (Stage.navigate "chan1")).2 ∧
    (handleVoiceStateUpdates loadedEnv c1State0
        [("U", some "chan9")]).1.lastFollowedChannelId = some "chan9" :=
  C1_amended_capture_semantics loadedEnv c1State0 c1State2
    (Stage.navigate "chan1") "U" "chan9" rfl

/-!
## Claim C2 — leave event: search always, disconnect only under the flag -/

/-- C2: a location event with no channel for the followed user always
starts the search loop, and the local user is disconnected (with
`lastFollowedChannelId` cleared) exactly when `disconnectFollow` is on
and the local voice channel equals `lastFollowedChannelId`; with the
flag off no disconnect ever happens. -/
theorem C2_leave_event (env : Env) (s : FState) (uid : String)
    (h : s.followedUserId = some uid) :
    (handleVoiceStateUpdates env s [(uid, none)]).1.isSearching = true ∧
    (handleVoiceStateUpdates env s [(uid, none)]).1.searchLoop =
      some { userId := uid, username := env.username uid } ∧
    ((Effect.connectVoice none ∈ (handleVoiceStateUpdates env s [(uid, none)]).2) ↔
      (s.disconnectFollow = true ∧
        ∃ c, env.myVoiceChannelId = some c ∧
          s.lastFollowedChannelId = some c)) ∧
    (Effect.connectVoice none ∈ (handleVoiceStateUpdates env s [(uid, none)]).2 →
      (handleVoiceStateUpdates env s [(uid, none)]).1.lastFollowedChannelId =
        none) ∧
    (s.disconnectFollow = false →
      Effect.connectVoice none ∉ (handleVoiceStateUpdates env s [(uid, none)]).2) := by
  cases hdf : s.disconnectFollow with
  | false =>
    simp [handleVoiceStateUpdates, h, handleUpdatesLoop, hdf, startSearching,
      stopSearching]
  | true =>
    cases hmv : env.myVoiceChannelId with
    | none =>
      simp [handleVoiceStateUpdates, h, handleUpdatesLoop, hdf, hmv,
        startSearching, stopSearching]
    | some myc =>
      by_cases hlf : s.lastFollowedChannelId = some myc
      · simp [handleVoiceStateUpdates, h, handleUpdatesLoop, hdf, hmv, hlf,
          startSearching, stopSearching]
      · simp only [handleVoiceStateUpdates, h, handleUpdatesLoop, hdf, hmv,
          startSearching, stopSearching]
        simp [hlf]

/-- State for the C2 witness: following `U`, flag on, followed into
`chanX`. -/
def c2State : FState :=
  { initState with followedUserId := some "U", disconnectFollow := true,
                   lastFollowedChannelId := some "chanX" }

/-- Environment for the C2 witness: the local user sits in `chanX`. -/
def c2Env : Env := { emptyEnv with myVoiceChannelId := some "chanX" }

/-- Witness for C2: the disconnect scenario of the spec, concretely. -/
theorem C2_leave_event_witness :
    (handleVoiceStateUpdates c2Env c2State [("U", none)]).1.isSearching = true ∧
    (handleVoiceStateUpdates c2Env c2State [("U", none)]).1.searchLoop =
      some { userId := "U", username := c2Env.username "U" } ∧
    ((Effect.connectVoice none ∈
        (handleVoiceStateUpdates c2Env c2State [("U", none)]).2) ↔
      (c2State.disconnectFollow = true ∧
        ∃ c, c2Env.myVoiceChannelId = some c ∧
          c2State.lastFollowedChannelId = some c)) ∧
    (Effect.connectVoice none ∈
        (handleVoiceStateUpdates c2Env c2State [("U", none)]).2 →
      (handleVoiceStateUpdates c2Env c2State
          [("U", none)]).1.lastFollowedChannelId = none) ∧
    (c2State.disconnectFollow = false →
      Effect.connectVoice none ∉
        (handleVoiceStateUpdates c2Env c2State [("U", none)]).2) :=
  C2_leave_event c2Env c2State "U" rfl

/-!
## Claim C6 — unfollow clears the session without touching the connection -/

/-- C6: unfollowing (clicking the already-followed user) clears
`followedUserId` and `lastFollowedChannelId`, produces no external call
at all (in particular no voice disconnect), and the next search tick —
under any store contents — performs no voice-state query and removes the
interval, so no further directory queries occur after the next tick
boundary.  The `SearchInv` hypothesis (searching implies an installed
interval) holds in every reachable state. -/
theorem C6_unfollow_clean (env env2 : Env) (s : FState) (uid uname : String)
    (h : s.followedUserId = some uid) (hinv : SearchInv s) :
    (followAction env s uid uname).1.followedUserId = none ∧
    (followAction env s uid uname).1.lastFollowedChannelId = none ∧
    (followAction env s uid uname).2 = [] ∧
    (searchTick env2 (followAction env s uid uname).1).2 = [] ∧
    (searchTick env2 (followAction env s uid uname).1).1.isSearching = false ∧
    (searchTick env2 (followAction env s uid uname).1).1.searchLoop = none := by
  have hact : followAction env s uid uname =
      ({ s with followedUserId := none, lastFollowedChannelId := none }, []) := by
    simp [followAction, h]
  refine ⟨by simp [hact], by simp [hact], by simp [hact], ?_, ?_, ?_⟩ <;>
    · rw [hact]
      cases hsl : s.searchLoop with
      | none =>
        have hns : s.isSearching = false := by
          cases hi : s.isSearching with
          | false => rfl
          | true => exact absurd hsl (hinv hi)
        simp [searchTick, hsl, hns]
      | some loop => simp [searchTick, hsl, stopSearching]

/-- Witness for C6: unfollow during an active search. -/
theorem C6_unfollow_clean_witness :
    (followAction emptyEnv
        { initState with followedUserId := some "A", isSearching := true,
                         searchLoop := some { userId := "A", username := "alice" } }
        "A" "alice").1.followedUserId = none ∧
    (followAction emptyEnv
        { initState with followedUserId := some "A", isSearching := true,
                         searchLoop := some { userId := "A", username := "alice" } }
        "A" "alice").1.lastFollowedChannelId = none ∧
    (followAction emptyEnv
        { initState with followedUserId := some "A", isSearching := true,
                         searchLoop := some { userId := "A", username := "alice" } }
        "A" "alice").2 = [] ∧
    (searchTick emptyEnv (followAction emptyEnv
        { initState with followedUserId := some "A", isSearching := true,
                         searchLoop := some { userId := "A", username := "alice" } }
        "A" "alice").1).2 = [] ∧
    (searchTick emptyEnv (followAction emptyEnv
        { initState with followedUserId := some "A", isSearching := true,
                         searchLoop := some { userId := "A", username := "alice" } }
        "A" "alice").1).1.isSearching = false ∧
    (searchTick emptyEnv (followAction emptyEnv
        { initState with followedUserId := some "A", isSearching := true,
                         searchLoop := some { userId := "A", username := "alice" } }
        "A" "alice").1).1.searchLoop = none :=
  C6_unfollow_clean emptyEnv emptyEnv
    { initState with followedUserId := some "A", isSearching := true,
                     searchLoop := some { userId := "A", username := "alice" } }
    "A" "alice" rfl (fun _ => by decide)

/-!
## Claim C5 — follow-switch allegedly stops the old search loop first -/

/-- Environment for the C5 counterexample: `B` is already in `chanB`. -/
def c5Env : Env :=
  { emptyEnv with
      voiceChannelOf := fun u => if u = "B" then some "chanB" else none }

/-- State for the C5 counterexample: following `A` with an active search
loop for `A`. -/
def c5State : FState :=
  { initState with followedUserId := some "A", isSearching := true,
                   searchLoop := some { userId := "A", username := "alice" } }

/-- C5 counterexample: switching to `B` (already in a voice channel)
runs the whole join action for `B` — navigate stage scheduled,
`lastFollowedChannelId := chanB` — while `A`'s search interval is still
installed and `isSearching` is still true: `A`'s search loop was *not*
stopped before `B`'s probe/join logic ran. -/
theorem C5_counterexample :
    (followAction c5Env c5State "B" "bob").1.searchLoop =
      some { userId := "A", username := "alice" } ∧
    (followAction c5Env c5State "B" "bob").1.isSearching = true ∧
    (followAction c5Env c5State "B" "bob").1.followedUserId = some "B" ∧
    (followAction c5Env c5State "B" "bob").1.pendingStages =
      [Stage.navigate "chanB"] ∧
    (followAction c5Env c5State "B" "bob").1.lastFollowedChannelId =
      some "chanB" ∧
    Effect.queryVoiceState "B" ∈ (followAction c5Env c5State "B" "bob").2 := by
  decide

/-- C5 amended: `follow(B)` while following `A` does clear
`lastKnownChannelId` and set the target to `B` before `B`'s logic runs,
but it leaves `A`'s search interval installed when `B` is already in a
channel; the stale loop is only cancelled cooperatively — its next tick
(under any store) performs no voice-state query and stops it — and when
`B` is not in a channel, `startSearching` replaces `A`'s loop by `B`'s
with `lastKnownChannelId` still `none`. -/
theorem C5_amended_cooperative_replacement (env env2 : Env) (s : FState)
    (a ua b ub cb : String) (hf : s.followedUserId = some a) (hne : a ≠ b)
    (hloop : s.searchLoop = some { userId := a, username := ua })
    (hb : env.voiceChannelOf b = some cb) :
    (followAction env s b ub).1.followedUserId = some b ∧
    (followAction env s b ub).1.lastFollowedChannelId = some cb ∧
    (followAction env s b ub).1.searchLoop =
      some { userId := a, username := ua } ∧
    (searchTick env2 (followAction env s b ub).1).2 = [] ∧
    (searchTick env2 (followAction env s b ub).1).1.isSearching = false ∧
    (searchTick env2 (followAction env s b ub).1).1.searchLoop = none ∧
    (∀ env3 : Env, env3.voiceChannelOf b = none →
      (followAction env3 s b ub).1.searchLoop =
          some { userId := b, username := ub } ∧
        (followAction env3 s b ub).1.lastFollowedChannelId = none) := by
  have hcond : ¬s.followedUserId = some b := by
    rw [hf]; intro hx; exact hne (Option.some.injEq a b ▸ hx)
  have hact : (followAction env s b ub).1 =
      (joinVoiceChannel env
        (preloadMutualGuilds env
          { s with followedUserId := some b, lastFollowedChannelId := none }
          b).1 cb).1 := by
    simp [followAction, hcond, hb]
  refine ⟨?_, ?_, ?_, ?_, ?_, ?_, ?_⟩
  · simp [hact, joinVoiceChannel, preloadMutualGuilds]
  · simp [hact, joinVoiceChannel, preloadMutualGuilds]
  · simp [hact, joinVoiceChannel, preloadMutualGuilds, hloop]
  · have h1 : (followAction env s b ub).1.searchLoop =
        some { userId := a, username := ua } := by
      simp [hact, joinVoiceChannel, preloadMutualGuilds, hloop]
    have h2 : (followAction env s b ub).1.followedUserId = some b := by
      simp [hact, joinVoiceChannel, preloadMutualGuilds]
    simp [searchTick, h1, h2, hne.symm, stopSearching]
  · have h1 : (followAction env s b ub).1.searchLoop =
        some { userId := a, username := ua } := by
      simp [hact, joinVoiceChannel, preloadMutualGuilds, hloop]
    have h2 : (followAction env s b ub).1.followedUserId = some b := by
      simp [hact, joinVoiceChannel, preloadMutualGuilds]
    simp [searchTick, h1, h2, hne.symm, stopSearching]
  · have h1 : (followAction env s b ub).1.searchLoop =
        some { userId := a, username := ua } := by
      simp [hact, joinVoiceChannel, preloadMutualGuilds, hloop]
    have h2 : (followAction env s b ub).1.followedUserId = some b := by
      simp [hact, joinVoiceChannel, preloadMutualGuilds]
    simp [searchTick, h1, h2, hne.symm, stopSearching]
  · intro env3 h3
    constructor <;>
      simp [followAction, hcond, h3, startSearching, stopSearching,
        preloadMutualGuilds]

/-- Witness for the amended C5 at the concrete counterexample inputs. -/
theorem C5_amended_cooperative_replacement_witness :
    (followAction c5Env c5State "B" "bob").1.followedUserId = some "B" ∧
    (followAction c5Env c5State "B" "bob").1.lastFollowedChannelId =
      some "chanB" ∧
    (followAction c5Env c5State "B" "bob").1.searchLoop =
      some { userId := "A", username := "alice" } ∧
    (searchTick emptyEnv (followAction c5Env c5State "B" "bob").1).2 = [] ∧
    (searchTick emptyEnv (followAction c5Env c5State "B" "bob").1).1.isSearching =
      false ∧
    (searchTick emptyEnv (followAction c5Env c5State "B" "bob").1).1.searchLoop =
      none ∧
    (∀ env3 : Env, env3.voiceChannelOf "B" = none →
      (followAction env3 c5State "B" "bob").1.searchLoop =
          some { userId := "B", username := "bob" } ∧
        (followAction env3 c5State "B" "bob").1.lastFollowedChannelId = none) :=
  C5_amended_cooperative_replacement c5Env emptyEnv c5State "A" "alice" "B"
    "bob" "chanB" rfl (by decide) rfl rfl

/-!
## Claim C7 — the searching-implies-target invariant -/

theorem searchInv_stopSearching (s : FState) : SearchInv (stopSearching s) := by
  simp [SearchInv, stopSearching]

theorem searchInv_startSearching (s : FState) (u un : String) :
    SearchInv (startSearching s u un).1 := by
  simp [SearchInv, startSearching, stopSearching]

theorem searchInv_joinVoiceChannel (env : Env) (s : FState) (cid : String)
    (h : SearchInv s) : SearchInv (joinVoiceChannel env s cid).1 := by
  simpa [SearchInv, joinVoiceChannel] using h

theorem searchInv_handleUpdatesLoop (env : Env) (fid : String) :
    ∀ (ups : List (String × Option String)) (s : FState), SearchInv s →
      SearchInv (handleUpdatesLoop env fid s ups).1
  | [], s, h => by simpa [handleUpdatesLoop] using h
  | (uid, chan) :: rest, s, h => by
    by_cases hu : uid = fid
    · cases chan with
      | some cid =>
        by_cases hne : some cid ≠ s.lastFollowedChannelId
        · have := searchInv_handleUpdatesLoop env fid rest
            (joinVoiceChannel env (stopSearching s) cid).1
            (searchInv_joinVoiceChannel env _ cid (searchInv_stopSearching s))
          simpa [handleUpdatesLoop, hu, hne] using this
        · have := searchInv_handleUpdatesLoop env fid rest s h
          simpa [handleUpdatesLoop, hu, hne] using this
      | none =>
        cases hdf : s.disconnectFollow with
        | false =>
          simp [handleUpdatesLoop, hu, hdf, SearchInv, startSearching,
            stopSearching]
        | true =>
          cases hmv : env.myVoiceChannelId with
          | none =>
            have := searchInv_handleUpdatesLoop env fid rest
              (startSearching s fid (env.username fid)).1
              (searchInv_startSearching s fid (env.username fid))
            simpa [handleUpdatesLoop, hu, hdf, hmv] using this
          | some myc =>
            by_cases hlf : s.lastFollowedChannelId = some myc
            · have := searchInv_handleUpdatesLoop env fid rest
                { (startSearching s fid (env.username fid)).1 with
                    lastFollowedChannelId := none }
                (by simp [SearchInv, startSearching, stopSearching])
              simpa [handleUpdatesLoop, hu, hdf, hmv, hlf] using this
            · have := searchInv_handleUpdatesLoop env fid rest
                (startSearching s fid (env.username fid)).1
                (searchInv_startSearching s fid (env.username fid))
              simpa [handleUpdatesLoop, hu, hdf, hmv, hlf] using this
    · have := searchInv_handleUpdatesLoop env fid rest s h
      simpa [handleUpdatesLoop, hu] using this

theorem searchInv_followAction (env : Env) (s : FState) (uid un : String)
    (h : SearchInv s) : SearchInv (followAction env s uid un).1 := by
  by_cases hc : s.followedUserId = some uid
  · simpa [followAction, hc, SearchInv] using h
  · cases hv : env.voiceChannelOf uid with
    | some cid =>
      simpa [followAction, hc, hv, joinVoiceChannel, preloadMutualGuilds,
        SearchInv] using h
    | none =>
      simp [followAction, hc, hv, startSearching, stopSearching,
        preloadMutualGuilds, SearchInv]

theorem searchInv_searchTick (env : Env) (s : FState) (h : SearchInv s) :
    SearchInv (searchTick env s).1 := by
  cases hl : s.searchLoop with
  | none => simpa [searchTick, hl] using h
  | some loop =>
    by_cases hf : s.followedUserId = some loop.userId
    · cases hv : checkUserInVoiceChannel env loop.userId with
      | some cid =>
        by_cases hne : some cid ≠ s.lastFollowedChannelId
        · simp [searchTick, hl, hf, hv, hne, joinVoiceChannel, stopSearching,
            SearchInv]
        · simpa [searchTick, hl, hf, hv, hne] using h
      | none => simpa [searchTick, hl, hf, hv] using h
    · simp [searchTick, hl, hf, stopSearching, SearchInv]

theorem searchInv_step (env : Env) (s : FState) (op : Op) (h : SearchInv s) :
    SearchInv (step env s op).1 := by
  cases op with
  | start => simp [step, startOp, stopSearching, SearchInv]
  | stop => simp [step, stopOp, stopSearching, SearchInv]
  | follow uid un => exact searchInv_followAction env s uid un h
  | voiceUpdates ups =>
    cases hf : s.followedUserId with
    | none => simpa [step, handleVoiceStateUpdates, hf] using h
    | some fid =>
      have := searchInv_handleUpdatesLoop env fid ups s h
      simpa [step, handleVoiceStateUpdates, hf] using this
  | tick => exact searchInv_searchTick env s h
  | fire n =>
    cases hg : s.pendingStages[n]? with
    | none => simpa [step, List.get?_eq_getElem?, hg] using h
    | some st =>
      cases st with
      | navigate cid =>
        simpa [step, List.get?_eq_getElem?, hg, fireStage, SearchInv] using h
      | connect cid =>
        simpa [step, List.get?_eq_getElem?, hg, fireStage, SearchInv] using h
  | updateSettings df pd dbg => simpa [step, updateSettingsOp, SearchInv] using h

theorem reachable_searchInv (s : FState) (h : Reachable s) : SearchInv s := by
  induction h with
  | init => intro hx; simp [initState] at hx
  | step env s' op hr ih => exact searchInv_step env s' op ih

/-- Reached by `follow "A"` from the initial state while `A` is not in
voice: an active search for `A`. -/
def c7State1 : FState := (step emptyEnv initState (Op.follow "A" "alice")).1

/-- Reached from `c7State1` by clicking `A` again (unfollow). -/
def c7State2 : FState := (step emptyEnv c7State1 (Op.follow "A" "alice")).1

/-- C7 counterexample: after `follow(A)` (search active) and then
`unfollow`, the reachable state has `isSearching = true` with
`followedUserId = none` — the invariant `searching → targetId ≠ none`
is violated, because the unfollow branch clears the ids without calling
`stopSearching`. -/
theorem C7_counterexample :
    Reachable c7State2 ∧ c7State2.isSearching = true ∧
      c7State2.followedUserId = none := by
  refine ⟨?_, by decide, by decide⟩
  exact Reachable.step emptyEnv c7State1 (Op.follow "A" "alice")
    (Reachable.step emptyEnv initState (Op.follow "A" "alice") Reachable.init)

/-- C7 amended: in every reachable state, if the controller is
searching then either a target is still set, or (after an unfollow) the
very next tick of the still-installed interval stops the search without
performing any voice-state query — the violation window closes at the
next tick boundary and never produces an effect. -/
theorem C7_amended_invariant (s : FState) (h : Reachable s)
    (hs : s.isSearching = true) (env : Env) :
    s.followedUserId ≠ none ∨
      ((searchTick env s).1.isSearching = false ∧ (searchTick env s).2 = [] ∧
        (searchTick env s).1.searchLoop = none) := by
  cases hf : s.followedUserId with
  | some u => exact Or.inl (by simp [hf])
  | none =>
    right
    have hl := reachable_searchInv s h hs
    cases hsl : s.searchLoop with
    | none => exact absurd hsl hl
    | some loop => simp [searchTick, hsl, hf, stopSearching]

/-- Witness for the amended C7 at the reachable searching state
`c7State1`. -/
theorem C7_amended_invariant_witness :
    c7State1.followedUserId ≠ none ∨
      ((searchTick emptyEnv c7State1).1.isSearching = false ∧
        (searchTick emptyEnv c7State1).2 = [] ∧
        (searchTick emptyEnv c7State1).1.searchLoop = none) :=
  C7_amended_invariant c7State1
    (Reachable.step emptyEnv initState (Op.follow "A" "alice") Reachable.init)
    (by decide) emptyEnv

/-!
## Claim C8 — preload-cache discipline -/

/-- Environment for the C8 counterexample: channel `c1` sits in guild
`g1` with default channel `d1`, and the preload call for `g1` rejects. -/
def c8Env : Env :=
  { emptyEnv with
      getChannel := fun c =>
        if c = "c1" then some { guild_id := some "g1", isPriv := false }
        else none
      getDefaultChannel := fun g => if g = "g1" then some "d1" else none
      preloadFails := fun g => if g = "g1" then true else false }

/-- C8 counterexample: (i) a guild whose preload call fails is *not*
marked cached (the mark sits after the `await` in the source, so the
`catch` skips it) — contradicting "marked cached regardless of success
or failure"; (ii) the join-stage preload (`preloadGuildData`, run by
`joinVoiceChannel`) issues the preload even though `g1` is already in
`preloadedGuilds` — contradicting "a guild already in the PreloadCache
is not preloaded again". -/
theorem C8_counterexample :
    (preloadOneGuild c8Env [] "g1").1 = [] ∧
    (preloadOneGuild c8Env [] "g1").2 = [Effect.preloadGuild "g1" "d1"] ∧
    (joinVoiceChannel c8Env
        { initState with preloadedGuilds := ["g1"] } "c1").2 =
      [Effect.preloadGuild "g1" "d1", Effect.requestSummaries "g1"] ∧
    (joinVoiceChannel c8Env
        { initState with preloadedGuilds := ["g1"] } "c1").1.preloadedGuilds =
      ["g1"] := by
  decide

/-- C8 amended: the PreloadCache is consulted only by the bulk
mutual-guild preload, never by the join-stage preload (whose effects do
not depend on the state at all); the bulk loop skips cached guilds and
marks a guild cached only when its preload call succeeds (a failed
preload leaves it unmarked, so it may be retried by a later bulk run);
the cache is cleared on controller start and on stop. -/
theorem C8_amended_cache_discipline (env : Env) (s : FState) (c g dc : String)
    (cache : List String) :
    (joinVoiceChannel env s c).2 = preloadGuildData env c ∧
    (g ∈ cache → preloadOneGuild env cache g = (cache, [])) ∧
    (g ∉ cache → env.getDefaultChannel g = some dc →
      env.preloadFails g = false →
      (preloadOneGuild env cache g).1 = g :: cache) ∧
    (g ∉ cache → env.preloadFails g = true →
      (preloadOneGuild env cache g).1 = cache) ∧
    (startOp s).preloadedGuilds = [] ∧ (stopOp s).preloadedGuilds = [] := by
  refine ⟨rfl, ?_, ?_, ?_, rfl, rfl⟩
  · intro hmem; simp [preloadOneGuild, hmem]
  · intro hmem hdc hsucc; simp [preloadOneGuild, hmem, hdc, hsucc]
  · intro hmem hfail
    cases hdc : env.getDefaultChannel g with
    | none => simp [preloadOneGuild, hmem, hdc]
    | some dc2 => simp [preloadOneGuild, hmem, hdc, hfail]

/-- Witness for the amended C8: a cached guild is skipped by the bulk
loop, a failing guild stays unmarked, and start clears the cache. -/
theorem C8_amended_cache_discipline_witness :
    preloadOneGuild c8Env ["g1"] "g1" = (["g1"], []) ∧
    (preloadOneGuild c8Env [] "g1").1 = [] ∧
    (startOp { initState with preloadedGuilds := ["g1"] }).preloadedGuilds =
      [] :=
  ⟨(C8_amended_cache_discipline c8Env initState "c1" "g1" "d1" ["g1"]).2.1
      (by decide),
   (C8_amended_cache_discipline c8Env initState "c1" "g1" "d1" []).2.2.2.1
      (by decide) (by decide),
   (C8_amended_cache_discipline c8Env
      { initState with preloadedGuilds := ["g1"] } "c1" "g1" "d1" []).2.2.2.2.1⟩

/-!
## Claim C9 — no exception ever escapes the handlers -/

/-- A loaded public channel used by the C9 scenarios. -/
def c9Channel : Channel := { guild_id := some "g1", isPriv := false }

/-- Collaborators for the C9 counterexample: everything succeeds except
`ChannelActions.selectVoiceChannel`, which throws. -/
def c9Env : ThrowEnv :=
  { getChannel := fun _ => Except.ok (some c9Channel)
    canView := fun _ => Except.ok true
    canConnect := fun _ => Except.ok true
    transitionToChannel := fun _ => Except.ok ()
    selectVoiceChannel := fun _ => Except.error "connect failed" }

/-- C9 counterexample: the connect timer callback has no `try`/`catch`
around `ChannelActions.selectVoiceChannel` (source lines 1587–1598), so
a throwing connect call escapes the callback as an uncaught exception —
the claim that every collaborator failure is caught within the attempt
is false. -/
theorem C9_counterexample :
    connectStageT c9Env "chan1" = Except.error "connect failed" := rfl

/-- C9 amended: preload failures and navigate failures are caught
within the attempt — whenever the directory lookup itself returns
(rather than throws), the navigate callback never propagates an
exception, even when `transitionToChannel` throws — but the connect
call is unguarded: when the permission check passes and
`selectVoiceChannel` throws, the connect callback propagates that
exception. -/
theorem C9_amended_error_scoping (env : ThrowEnv) (cid : String)
    (r : Option Channel) (e : String) (h : env.getChannel cid = Except.ok r) :
    (∃ effs, navigateStageT env cid = Except.ok effs) ∧
    (canJoinChannelT env (some cid) = Except.ok true →
      env.selectVoiceChannel (some cid) = Except.error e →
      connectStageT env cid = Except.error e) := by
  constructor
  · cases r with
    | none =>
      cases ht : env.transitionToChannel cid with
      | ok u => exact ⟨[Effect.navigate cid], by simp [navigateStageT, canViewChannelT, h, ht]⟩
      | error e2 => exact ⟨[], by simp [navigateStageT, canViewChannelT, h, ht]⟩
    | some ch =>
      by_cases hp : ch.isPriv
      · cases ht : env.transitionToChannel cid with
        | ok u =>
          exact ⟨[Effect.navigate cid],
            by simp [navigateStageT, canViewChannelT, h, hp, ht]⟩
        | error e2 =>
          exact ⟨[], by simp [navigateStageT, canViewChannelT, h, hp, ht]⟩
      · cases hv : env.canView ch with
        | ok b =>
          cases b with
          | true =>
            cases ht : env.transitionToChannel cid with
            | ok u =>
              exact ⟨[Effect.navigate cid],
                by simp [navigateStageT, canViewChannelT, h, hp, hv, ht]⟩
            | error e2 =>
              exact ⟨[], by simp [navigateStageT, canViewChannelT, h, hp, hv, ht]⟩
          | false =>
            exact ⟨[], by simp [navigateStageT, canViewChannelT, h, hp, hv]⟩
        | error e2 =>
          exact ⟨[], by simp [navigateStageT, canViewChannelT, h, hp, hv]⟩
  · intro h1 h2
    simp [connectStageT, h1, h2]

/-- Collaborators for the C9 amended witness: connect throws `boom`. -/
def c9Env2 : ThrowEnv :=
  { c9Env with selectVoiceChannel := fun _ => Except.error "boom" }

/-- Witness for the amended C9: connect-call exceptions propagate. -/
theorem C9_amended_error_scoping_witness :
    connectStageT c9Env2 "chan1" = Except.error "boom" :=
  (C9_amended_error_scoping c9Env2 "chan1" (some c9Channel) "boom" rfl).2
    rfl rfl

/-!
## Claim C10 — follow() bulk-preloads every mutual guild -/

/-- C10: starting to follow an identity issues the REST profile fetch
with `with_mutual_guilds` (recorded as `Effect.restProfile`); when that
fetch fails the mutual-guild list falls back to local member/voice-state
detection; each mutual guild not yet in the PreloadCache gets its
default channel preloaded, followed by the 100 ms pause and the
channel-summaries request, while cached guilds are skipped entirely. -/
theorem C10_follow_bulk_preload (env : Env) (s : FState) (uid uname : String)
    (h : ¬s.followedUserId = some uid) :
    Effect.restProfile uid ∈ (followAction env s uid uname).2 ∧
    (env.restMutualGuilds uid = none →
      mutualGuildIds env uid = localMutualDetect env uid) ∧
    (∀ g dc cache, g ∉ cache → env.getDefaultChannel g = some dc →
      env.preloadFails g = false →
      preloadOneGuild env cache g =
        (g :: cache,
         [Effect.preloadGuild g dc, Effect.sleep 100,
          Effect.requestSummaries g])) ∧
    (∀ g cache, g ∈ cache → preloadOneGuild env cache g = (cache, [])) := by
  refine ⟨?_, ?_, ?_, ?_⟩
  · cases hv : env.voiceChannelOf uid with
    | some cid => simp [followAction, h, hv, preloadMutualGuilds]
    | none => simp [followAction, h, hv, preloadMutualGuilds]
  · intro hrest; simp [mutualGuildIds, hrest]
  · intro g dc cache hmem hdc hsucc
    simp [preloadOneGuild, hmem, hdc, hsucc]
  · intro g cache hmem; simp [preloadOneGuild, hmem]

/-- Witness for C10: following from the initial state in the empty
store issues the profile fetch; a cached guild is skipped. -/
theorem C10_follow_bulk_preload_witness :
    Effect.restProfile "U" ∈ (followAction emptyEnv initState "U" "u").2 ∧
    preloadOneGuild emptyEnv ["gx"] "gx" = (["gx"], []) :=
  ⟨(C10_follow_bulk_preload emptyEnv initState "U" "u" (by decide)).1,
   (C10_follow_bulk_preload emptyEnv initState "U" "u" (by decide)).2.2.2
     "gx" ["gx"] (by decide)⟩
